import Mathlib

/-!
Verification of the ucall Python client transport and benchmark harness.

Shallow embedding of:
* the binary payload codec (`src/ujrpc/client.py` `Client.pack` / `Client.unpack`,
  `src/ucall/client.py` `Request.pack`, `Response.numpy` / `Response.image`):
  base64 text sub-envelope around self-describing binary containers, with
  magic-byte sniffing on the inbound path;
* the JSON-RPC client call building, response validation and connection
  management (`src/ucall/client.py`, `src/ujrpc/client.py`,
  `benchmark/ujrpc_client.py`, `tests/ujrpc_client_test.py`);
* the benchmark runners (`examples/bench.py` `bench_serial` / `bench_parallel`,
  `benchmark/benchmark.py` `benchmark` / `benchmark_parallel`).

Machine reals (wall-clock seconds) are modelled as exact rationals; Python
dictionaries are modelled as records holding the fields the code reads; code
that can raise returns `Except`/`Option`.
-/

set_option maxRecDepth 10000

/-! ## Byte-level container serialization

The numpy `.npy` container (`np.save` / `np.load`) and the PIL image container
(`image.save` / `Image.open`) are library internals, out of scope per the spec
(treated as opaque self-describing binary codecs).  They are modelled from the
spec below as concrete self-describing containers: a magic header followed by
length-delimited fields.  Bytes are naturals `< 256`. -/
/-- Little-endian digits of `n` in base 255 (every digit is `< 255`, so the
byte `255` can serve as a field terminator). -/
def natToB : ℕ → List ℕ
  | 0 => []
  | n + 1 => (n + 1) % 255 :: natToB ((n + 1) / 255)
decreasing_by exact Nat.div_lt_self (Nat.succ_pos n) (by decide)

/-- One serialized natural: its base-255 digits followed by the `255` terminator. -/
def encNat (n : ℕ) : List ℕ := natToB n ++ [255]

/-- Read one serialized natural, returning it and the unconsumed tail. -/
def decNat : List ℕ → Option (ℕ × List ℕ)
  | [] => none
  | b :: bs =>
    if b = 255 then some (0, bs)
    else
      match decNat bs with
      | some (n, rest) => some (b + 255 * n, rest)
      | none => none

/-- Serialize a list of naturals element-wise (no count). -/
def encNatList : List ℕ → List ℕ
  | [] => []
  | n :: ns => encNat n ++ encNatList ns

/-- Read exactly `k` serialized naturals. -/
def decNats : ℕ → List ℕ → Option (List ℕ × List ℕ)
  | 0, bs => some ([], bs)
  | k + 1, bs =>
    match decNat bs with
    | some (n, bs1) =>
      match decNats k bs1 with
      | some (ns, bs2) => some (n :: ns, bs2)
      | none => none
    | none => none

/-- Serialize a length-prefixed list of naturals. -/
def encLen (ns : List ℕ) : List ℕ := encNat ns.length ++ encNatList ns

/-- Read a length-prefixed list of naturals. -/
def decLen (bs : List ℕ) : Option (List ℕ × List ℕ) :=
  match decNat bs with
  | some (k, bs1) => decNats k bs1
  | none => none

/-- Serialize a string as the length-prefixed list of its characters' codepoints. -/
def encStr (s : String) : List ℕ := encLen (s.toList.map Char.toNat)

/-- Read a serialized string. -/
def decStr (bs : List ℕ) : Option (String × List ℕ) :=
  match decLen bs with
  | some (ns, rest) => some (String.mk (ns.map Char.ofNat), rest)
  | none => none

/-- A dense numeric array: dtype and shape metadata plus flat element data,
exactly the information the spec requires the container to carry
("dtype/shape/mode metadata travels with the payload"). -/
structure NDArray where
  dtype : String
  shape : List ℕ
  data : List ℕ
deriving DecidableEq, Repr

/-- The numpy container magic bytes `\x93NUMPY` checked by
`Client.unpack` (`src/ujrpc/client.py` line 104). -/
def npMagic : List ℕ := [147, 78, 85, 77, 80, 89]

/-- Modelled from the spec: `np.save` — the self-describing numpy container
(magic header, then dtype, shape and data fields).  The real `.npy` writer is
a library internal not present in this repository. -/
def npSave (a : NDArray) : List ℕ :=
  npMagic ++ encStr a.dtype ++ encLen a.shape ++ encLen a.data

/-- Modelled from the spec: `np.load` — reads back the self-describing numpy
container, failing on anything else. -/
def npLoad (bs : List ℕ) : Option NDArray :=
  if bs.take 6 = npMagic then
    match decStr (bs.drop 6) with
    | some (dt, r1) =>
      match decLen r1 with
      | some (sh, r2) =>
        match decLen r2 with
        | some (d, _) => some ⟨dt, sh, d⟩
        | none => none
      | none => none
    | none => none
  else none

/-- An image value: container format, pixel mode, size and raw pixels —
the observables PIL's image equality compares (mode, size, pixel bytes),
plus the container format. -/
structure PILImage where
  format : String
  mode : String
  width : ℕ
  height : ℕ
  pixels : List ℕ
deriving DecidableEq, Repr

/-- The image container magic bytes (TIFF little-endian `II*\0`); distinct
from `npMagic` in the first byte, which is what makes the inbound sniffing
order unambiguous for packed arrays vs packed images. -/
def imgMagic : List ℕ := [73, 73, 42, 0]

/-- Models `if not image.format: image.format = 'tiff'` — the format defaulting
performed by `Request._pack_pillow` (`src/ucall/client.py` lines 93-94) and by
`Client.pack` (`src/ujrpc/client.py` lines 91-92) before saving. -/
def fmtDefault (i : PILImage) : PILImage :=
  if i.format = "" then { i with format := "tiff" } else i

/-- Modelled from the spec: `image.save(buf, image.format, compression='raw')`
— the self-describing image container (library internal, lossless raw
compression per the round-trip requirement of the spec). -/
def imgSave (i : PILImage) : List ℕ :=
  imgMagic ++ encStr i.format ++ encStr i.mode ++ encNat i.width ++
    encNat i.height ++ encLen i.pixels

/-- Modelled from the spec: `Image.open` (+ `verify`) — parses the image
container, failing on anything else. -/
def imgOpen (bs : List ℕ) : Option PILImage :=
  if bs.take 4 = imgMagic then
    match decStr (bs.drop 4) with
    | some (fmt, r1) =>
      match decStr r1 with
      | some (md, r2) =>
        match decNat r2 with
        | some (w, r3) =>
          match decNat r3 with
          | some (hh, r4) =>
            match decLen r4 with
            | some (px, _) => some ⟨fmt, md, w, hh, px⟩
            | none => none
          | none => none
        | none => none
      | none => none
    | none => none
  else none

/-! ## Base64

`base64.b64encode(...).decode()` / `base64.b64decode(...)` as used in both
clients: standard alphabet, `=` padding.  Inputs are byte lists (naturals
`< 256`), outputs are character lists. -/
/-- The standard base64 alphabet. -/
def b64Chars : List Char :=
  ['A', 'B', 'C', 'D', 'E', 'F', 'G', 'H', 'I', 'J', 'K', 'L', 'M',
   'N', 'O', 'P', 'Q', 'R', 'S', 'T', 'U', 'V', 'W', 'X', 'Y', 'Z',
   'a', 'b', 'c', 'd', 'e', 'f', 'g', 'h', 'i', 'j', 'k', 'l', 'm',
   'n', 'o', 'p', 'q', 'r', 's', 't', 'u', 'v', 'w', 'x', 'y', 'z',
   '0', '1', '2', '3', '4', '5', '6', '7', '8', '9', '+', '/']

/-- Encode one 6-bit group as its alphabet character. -/
def encC (n : ℕ) : Char := b64Chars.getD n 'A'

/-- Decode one alphabet character back to its 6-bit group. -/
def decC (c : Char) : Option ℕ := b64Chars.indexOf? c

/-- Models `base64.b64encode`: 3 input bytes become 4 output characters, with `=`
padding for a 1- or 2-byte tail. -/
def b64e : List ℕ → List Char
  | [] => []
  | [b0] => [encC (b0 / 4), encC (b0 % 4 * 16), '=', '=']
  | [b0, b1] => [encC (b0 / 4), encC (b0 % 4 * 16 + b1 / 16), encC (b1 % 16 * 4), '=']
  | b0 :: b1 :: b2 :: rest =>
    encC (b0 / 4) :: encC (b0 % 4 * 16 + b1 / 16) :: encC (b1 % 16 * 4 + b2 / 64) ::
      encC (b2 % 64) :: b64e rest

/-- Models `base64.b64decode`: groups of 4 characters become 3 bytes, with the two
padded tail forms; anything malformed is rejected. -/
def b64d : List Char → Option (List ℕ)
  | [] => some []
  | c0 :: c1 :: c2 :: c3 :: rest =>
    match decC c0, decC c1 with
    | some v0, some v1 =>
      if c2 = '=' ∧ c3 = '=' ∧ rest = [] then some [v0 * 4 + v1 / 16]
      else
        match decC c2 with
        | some v2 =>
          if c3 = '=' ∧ rest = [] then some [v0 * 4 + v1 / 16, v1 % 16 * 16 + v2 / 4]
          else
            match decC c3, b64d rest with
            | some v3, some bs =>
              some ((v0 * 4 + v1 / 16) :: (v1 % 16 * 16 + v2 / 4) :: (v2 % 4 * 64 + v3) :: bs)
            | _, _ => none
        | none => none
    | _, _ => none
  | _ => none

/-! ## Binary payload codec (`src/ujrpc/client.py` `Client.pack` / `Client.unpack`,
`src/ucall/client.py` `Request._pack_numpy` / `_pack_pillow` / `_pack_bytes`) -/
/-- The result of inbound binary sniffing: a numeric array, an image, or an
opaque byte buffer. -/
inductive UnpackVal
  | arr (a : NDArray)
  | img (i : PILImage)
  | bin (bs : List ℕ)
deriving DecidableEq, Repr

/-- Models `Client.unpack` (`src/ujrpc/client.py` lines 101-115): fixed-priority
sniffing — numpy magic first (a `np.load` failure there raises, modelled as
`none`), then an attempted image parse, else opaque bytes. -/
def unpack (bs : List ℕ) : Option UnpackVal :=
  if bs.take 6 = npMagic then (npLoad bs).map UnpackVal.arr
  else
    match imgOpen bs with
    | some i => some (UnpackVal.img i)
    | none => some (UnpackVal.bin bs)

/-- Models `Request._pack_numpy` (`src/ucall/client.py` lines 82-86) and the ndarray
branch of `Client.pack` (`src/ujrpc/client.py` lines 84-88): `np.save` into a
buffer, then base64-encode. -/
def pack_numpy (a : NDArray) : List Char := b64e (npSave a)

/-- Models `Request._pack_pillow` (`src/ucall/client.py` lines 91-97) and the image
branch of `Client.pack` (`src/ujrpc/client.py` lines 90-97): default the
format to `'tiff'` when unset, save, then base64-encode. -/
def pack_pillow (i : PILImage) : List Char := b64e (imgSave (fmtDefault i))

/-- Models `Request._pack_bytes` (`src/ucall/client.py` lines 88-89): base64-encode
the raw buffer. -/
def pack_bytes (bs : List ℕ) : List Char := b64e bs

/-- The inbound path of `Client.__call__` (`src/ujrpc/client.py` lines
142-147): base64-decode the result payload, then sniff/unpack it.  A `none`
outer layer models the base64 decode failing (the enclosing `try` would then
leave the original value in place). -/
def unpackResult (payload : List Char) : Option (Option UnpackVal) :=
  (b64d payload).map unpack

/-- Models `Response.bytes` / `Response.numpy` (`src/ucall/client.py` lines 61-68):
the user-directed inbound path — base64-decode, then `np.load`, with no
sniffing. -/
def response_numpy (payload : List Char) : Option NDArray :=
  match b64d payload with
  | some bs => npLoad bs
  | none => none

/-! ## JSON scalar values and Python errors -/
/-- A JSON scalar as the clients inspect it (the fields read by the client
code hold scalars only; `error` objects are modelled separately). -/
inductive Scalar
  | null
  | bool (b : Bool)
  | int (z : ℤ)
  | float (q : ℚ)
  | str (s : String)
deriving DecidableEq, Repr

/-- Python truthiness of a JSON scalar (`assert response['jsonrpc']`). -/
def truthy : Scalar → Bool
  | .null => false
  | .bool b => b
  | .int z => z ≠ 0
  | .float q => q ≠ 0
  | .str s => s ≠ ""

/-- Presence and truthiness of an optional field. -/
def truthyOpt : Option Scalar → Bool
  | none => false
  | some v => truthy v

/-- The Python exceptions the modelled code can raise. -/
inductive PyErr
  | keyError (k : String)
  | indexError
  | typeError
  | valueError
  | assertError (msg : String)
  | runtimeError (code : ℤ) (message : String)
  | timeout
deriving DecidableEq, Repr

/-- Python `int(...)` applied to a JSON scalar (`int(response['result'])`). -/
def pyInt : Scalar → Except PyErr ℤ
  | .int z => .ok z
  | .bool b => .ok (if b then 1 else 0)
  | .float q => .ok (q.num.tdiv q.den)
  | .str s =>
    match s.toInt? with
    | some z => .ok z
    | none => .error .valueError
  | .null => .error .typeError

/-- Python `==` between a JSON scalar and an integer
(`response['id'] == self.identity`). -/
def scalarEqInt : Scalar → ℤ → Bool
  | .int z, n => z = n
  | .bool b, n => (if b then (1 : ℤ) else 0) = n
  | .float q, n => q = (n : ℚ)
  | _, _ => false

def scalarEqIntOpt : Option Scalar → ℤ → Bool
  | none, _ => false
  | some v, n => scalarEqInt v n

/-! ## Response objects and the ucall library client
(`src/ucall/client.py`) -/
/-- A JSON-RPC error object `{code, message}`. -/
structure ErrObj where
  code : ℤ
  message : String
deriving DecidableEq, Repr

/-- A decoded JSON-RPC response object, holding exactly the fields the client
code reads (`jsonrpc`, `id`, `result`, `error`); `none` models an absent key. -/
structure RespObj where
  jsonrpc : Option Scalar := none
  id : Option Scalar := none
  result : Option Scalar := none
  error : Option ErrObj := none
deriving DecidableEq, Repr

/-- A parsed JSON document as received: a single response object or a batch
array of them. -/
inductive JsonDoc
  | obj (o : RespObj)
  | arr (rs : List RespObj)
deriving DecidableEq, Repr

/-- Models `Response` (`src/ucall/client.py` lines 47-50): `_recv` wraps the parsed
JSON without inspecting it — no envelope validation happens on receive. -/
structure Response where
  data : RespObj
deriving DecidableEq, Repr

/-- Models `Response.raise_for_status` (`src/ucall/client.py` lines 57-59): raise
`RuntimeError(self.data['error'])` iff an `error` key is present. -/
def Response.raise_for_status (r : Response) : Except PyErr Unit :=
  match r.data.error with
  | some e => .error (.runtimeError e.code e.message)
  | none => .ok ()

/-- The `Response.json` property (`src/ucall/client.py` lines 52-55):
`raise_for_status`, then `self.data['result']` (a `KeyError` when absent). -/
def Response.json (r : Response) : Except PyErr Scalar :=
  match r.raise_for_status with
  | .error e => .error e
  | .ok _ =>
    match r.data.result with
    | some v => .ok v
    | none => .error (.keyError "result")

/-- Models `Client._recv` (`src/ucall/client.py` lines 176-179): parse the bytes and
wrap them in a `Response`; no version, id or error checking is performed here. -/
def Client_recv (parsed : RespObj) : Response := ⟨parsed⟩

/-! ## Connection management
(`src/ucall/client.py` `_make_socket` / `_socket_is_closed`,
`src/ujrpc/client.py` `_send`) -/
/-- The observable socket state of one client: the current handle (a numeric
descriptor), whether its peer has performed an orderly close, the next fresh
descriptor, and the descriptors the client has explicitly closed. -/
structure ConnState where
  sock : Option ℕ
  peerClosed : Bool
  nextFd : ℕ
  closedFds : List ℕ
deriving DecidableEq, Repr

/-- Models `_socket_is_closed` / `socket_is_closed`: true when no connection exists
or the non-blocking 1-byte peek returned zero bytes. -/
def socket_is_closed (st : ConnState) : Bool :=
  st.sock.isNone || st.peerClosed

/-- Models `Client._make_socket` (`src/ucall/client.py` lines 145-149): when the
socket is detected closed, a fresh socket is created and assigned to
`self.sock`.  The prior handle is not closed: `closedFds` is left unchanged. -/
def make_socket (st : ConnState) : ConnState :=
  if socket_is_closed st then
    { sock := some st.nextFd, peerClosed := false, nextFd := st.nextFd + 1,
      closedFds := st.closedFds }
  else st

/-- The reconnection step of `Client._send` (`src/ujrpc/client.py` lines
122-123): `self.sock = make_tcp_socket(...) if socket_is_closed(self.sock)
else self.sock` — same replacement without closing. -/
def send_reconnect (st : ConnState) : ConnState :=
  if socket_is_closed st then
    { sock := some st.nextFd, peerClosed := false, nextFd := st.nextFd + 1,
      closedFds := st.closedFds }
  else st

/-! ## Dynamic call building (`__getattr__` in `src/ucall/client.py` lines
129-143 and `src/ujrpc/client.py` lines 59-73) -/
/-- The params container of an outgoing call: positional (`args`) or keyword
(`kwargs`). -/
inductive CallParams
  | positional (vs : List Scalar)
  | keyword (kvs : List (String × Scalar))
deriving DecidableEq, Repr

/-- An outgoing call body as built by `__getattr__`. -/
structure CallObj where
  method : String
  params : CallParams
  jsonrpc : String
deriving DecidableEq, Repr

/-- The body of the closure returned by `__getattr__`: `params = kwargs; if
len(args) != 0: assert len(kwargs) == 0; params = args`, then build the call. -/
def call_build (name : String) (args : List Scalar) (kvs : List (String × Scalar)) :
    Except PyErr CallObj :=
  if args ≠ [] then
    if kvs ≠ [] then
      .error (.assertError "Cant mix positional and keyword parameters!")
    else .ok ⟨name, .positional args, "2.0"⟩
  else .ok ⟨name, .keyword kvs, "2.0"⟩

/-- Models `__getattr__`'s closure followed by `self.__call__` (which sends): the
second component is the list of call bodies actually handed to the transport —
empty when call building raised. -/
def call_invoke (name : String) (args : List Scalar) (kvs : List (String × Scalar)) :
    Except PyErr CallObj × List CallObj :=
  match call_build name args kvs with
  | .error e => (.error e, [])
  | .ok c => (.ok c, [c])

/-! ## Benchmark sum clients
(`benchmark/ujrpc_client.py` `ClientSumTCP.recv` / `ClientSumBatchesTCP.recv`,
`tests/ujrpc_client_test.py` same classes) -/
/-- Python subscript `response[k]` with a string key: field lookup on an
object (a `KeyError` when absent), a `TypeError` when the response is a list. -/
def docGet (d : JsonDoc) (k : String) : Except PyErr Scalar :=
  match d with
  | .arr _ => .error .typeError
  | .obj o =>
    let fld : Option Scalar :=
      if k = "result" then o.result
      else if k = "jsonrpc" then o.jsonrpc
      else if k = "id" then o.id
      else none
    match fld with
    | some v => .ok v
    | none => .error (.keyError k)

/-- Python subscript `response[0]`: first entry of a batch (an `IndexError`
when empty), a `KeyError` when the response is a single object (its keys are
strings). -/
def docFirst (d : JsonDoc) : Except PyErr RespObj :=
  match d with
  | .obj _ => .error (.keyError "0")
  | .arr rs =>
    match rs.head? with
    | some r => .ok r
    | none => .error .indexError

/-- Python subscript `response[-1]`: last entry of a batch. -/
def docLast (d : JsonDoc) : Except PyErr RespObj :=
  match d with
  | .obj _ => .error (.keyError "-1")
  | .arr rs =>
    match rs.getLast? with
    | some r => .ok r
    | none => .error .indexError

/-- Models `ClientSumTCP.recv` (`benchmark/ujrpc_client.py` lines 111-121,
`tests/ujrpc_client_test.py` lines 77-87), applied to the parsed response:
read and convert the result, then assert envelope version truthiness, id
correlation, and the expected sum; returns 1 unit of work.  Each failing
lookup, conversion or assertion propagates as the corresponding Python
exception. -/
def recvSum (d : JsonDoc) (identity expected : ℤ) : Except PyErr ℤ :=
  match docGet d "result" with
  | .error e => .error e
  | .ok rv =>
    match pyInt rv with
    | .error e => .error e
    | .ok received =>
      match docGet d "jsonrpc" with
      | .error e => .error e
      | .ok jv =>
        if truthy jv then
          match docGet d "id" with
          | .error e => .error e
          | .ok iv =>
            if scalarEqInt iv identity then
              if expected = received then .ok 1
              else .error (.assertError "Wrong sum")
            else .error (.assertError "")
        else .error (.assertError "")

/-- Python `isinstance(response, list)`. -/
def isArr : JsonDoc → Bool
  | .arr _ => true
  | .obj _ => false

/-- Python `len(response)` on a batch response (unused on the object form,
which fails earlier). -/
def arrLen : JsonDoc → ℕ
  | .arr rs => rs.length
  | .obj _ => 0

/-- Models `ClientSumBatchesTCP.recv` (`tests/ujrpc_client_test.py` lines 109-122;
`benchmark/ujrpc_client.py` lines 161-174 is the same with `length` fixed to
7): read first and last results, then assert the response is a list of the
expected length, the first entry's version is truthy, and that the first and
last results — only those — equal the expected sum; returns `length` units of
work. -/
def recvSumBatch (d : JsonDoc) (expected : ℤ) (length : ℕ) : Except PyErr ℕ :=
  match docFirst d with
  | .error e => .error e
  | .ok r0 =>
    match r0.result with
    | none => .error (.keyError "result")
    | some fv =>
      match pyInt fv with
      | .error e => .error e
      | .ok receivedFirst =>
        match docLast d with
        | .error e => .error e
        | .ok rl =>
          match rl.result with
          | none => .error (.keyError "result")
          | some lv =>
            match pyInt lv with
            | .error e => .error e
            | .ok receivedLast =>
              if isArr d then
                if arrLen d = length then
                  if truthyOpt r0.jsonrpc then
                    if expected = receivedFirst then
                      if expected = receivedLast then .ok length
                      else .error (.assertError "Wrong sum")
                    else .error (.assertError "Wrong sum")
                  else .error (.assertError "")
                else .error (.assertError "")
              else .error (.assertError "")

/-! ## Request batches (`ClientSumBatchesTCP.send`,
`benchmark/ujrpc_client.py` lines 139-159) and the server's batch contract -/
/-- A JSON-RPC request object as the batch sender builds it. -/
structure ReqObj where
  method : Option String := none
  params : List (String × Scalar) := []
  jsonrpc : Option Scalar := none
  id : Option Scalar := none
deriving DecidableEq, Repr

/-- A request carries an id (is not a notification) when the `id` key is
present. -/
def hasId (r : ReqObj) : Bool := r.id.isSome

/-- The number of non-notification entries in a batch. -/
def countIds (bs : List ReqObj) : ℕ := bs.countP hasId

/-- The 8-entry batch built by `ClientSumBatchesTCP.send`
(`benchmark/ujrpc_client.py` lines 141-156): entry 1 is a notification (no
id), the other 7 carry `id`. -/
def benchBatch (a b pid : ℤ) : List ReqObj :=
  [ { method := some "sum", params := [("a", .int a), ("b", .int b)],
      jsonrpc := some (.str "2.0"), id := some (.int pid) },
    { method := some "sum", params := [("a", .int a), ("b", .int b)],
      jsonrpc := some (.str "2.0") },
    { method := some "sumsum", params := [("a", .int a), ("b", .int b)],
      jsonrpc := some (.str "2.0"), id := some (.int pid) },
    { method := some "sum", params := [],
      jsonrpc := some (.str "2.0"), id := some (.int pid) },
    { method := some "sum", params := [("a", .int a), ("b", .int b)],
      jsonrpc := some (.str "1.0"), id := some (.int pid) },
    { method := some "sum", params := [("aa", .int a), ("bb", .int b)],
      jsonrpc := some (.float 2), id := some (.int pid) },
    { id := some (.int pid) },
    { method := some "sum", params := [("a", .int a), ("b", .int b)],
      jsonrpc := some (.str "2.0"), id := some (.int pid) } ]

/-- Modelled from the spec: the external RPC server's batch handling (the
native server is not part of this repository) — "server responses are a JSON
array of response objects in request order, omitting entries for
notifications".  `handle` is the server's per-request behaviour. -/
def serverBatch (handle : ReqObj → RespObj) (batch : List ReqObj) : List RespObj :=
  (batch.filter hasId).map handle

/-! ## Outbound parameter packing over the caller's container
(`src/ucall/client.py` `Request.pack`, `src/ujrpc/client.py` `Client.pack`) -/
/-- A parameter value as held in the caller's params container. -/
inductive PVal
  | scalar (s : Scalar)
  | ndarray (a : NDArray)
  | image (i : PILImage)
  | bytes (bs : List ℕ)
deriving DecidableEq, Repr

/-- The caller's params container: a keyed dict or an indexable sequence
(`isinstance(req['params'], dict)` vs `range(0, len(req['params']))`). -/
inductive Params
  | dict (kvs : List (String × PVal))
  | seq (vs : List PVal)
deriving DecidableEq, Repr

/-- One iteration of the substitution loop in `Request.pack`
(`src/ucall/client.py` lines 106-114): numpy arrays, images and bytes are
replaced by their base64 strings; everything else is left as is. -/
def pack_value_ucall : PVal → PVal
  | .ndarray a => .scalar (.str (String.mk (pack_numpy a)))
  | .image i => .scalar (.str (String.mk (pack_pillow i)))
  | .bytes bs => .scalar (.str (String.mk (pack_bytes bs)))
  | .scalar s => .scalar s

/-- One iteration of the substitution loop in `Client.pack`
(`src/ujrpc/client.py` lines 82-97): only numpy arrays and images are
replaced; a bytes value falls through both `isinstance` checks untouched. -/
def pack_value_ujrpc : PVal → PVal
  | .ndarray a => .scalar (.str (String.mk (pack_numpy a)))
  | .image i => .scalar (.str (String.mk (pack_pillow i)))
  | .bytes bs => .bytes bs
  | .scalar s => .scalar s

/-- Models `Request.pack` (`src/ucall/client.py` lines 99-116): the state of the
caller's params container after the in-place substitution loop (state-passing
model of the mutation of `req['params'][k]`). -/
def Request_pack (p : Params) : Params :=
  match p with
  | .dict kvs => .dict (kvs.map fun kv => (kv.1, pack_value_ucall kv.2))
  | .seq vs => .seq (vs.map pack_value_ucall)

/-- Models `Client.pack` (`src/ujrpc/client.py` lines 75-99): same loop with the
ujrpc substitutions. -/
def Client_pack (p : Params) : Params :=
  match p with
  | .dict kvs => .dict (kvs.map fun kv => (kv.1, pack_value_ujrpc kv.2))
  | .seq vs => .seq (vs.map pack_value_ujrpc)

/-- Models `Request.__init__` (`src/ucall/client.py` lines 78-80): `self.data = json;
self.packed = self.pack(json)` — `pack` mutates `json` in place and returns
it, so `data`, `packed` and the caller's own params are the same mutated
object.  The first component is the caller's params after construction. -/
structure Request where
  data : Params
  packed : Params
deriving DecidableEq, Repr

def Request_init (p : Params) : Params × Request :=
  let q := Request_pack p
  (q, ⟨q, q⟩)

/-- Lookup in a params dict (`req['params'][k]` with a string key). -/
def dictGet : List (String × PVal) → String → Option PVal
  | [], _ => none
  | kv :: rest, k => if kv.1 = k then some kv.2 else dictGet rest k

/-- Models `req['params'][k]` on a sequence container. -/
def paramsIdx (p : Params) (k : ℕ) : Option PVal :=
  match p with
  | .seq vs => vs[k]?
  | .dict _ => none

/-- Models `req['params'][key]` on a dict container. -/
def paramsKey (p : Params) (key : String) : Option PVal :=
  match p with
  | .dict kvs => dictGet kvs key
  | .seq _ => none

namespace Bench

/-! ## Benchmark runner, `examples/bench.py` -/
/-- The observable behaviour of one `callable()` invocation inside
`bench_serial`'s `try`: a normal return, an `AssertionError`, any other
`Exception` (with its message), or a `KeyboardInterrupt`. -/
inductive Outcome
  | success
  | assertFail
  | otherFail (msg : String)
  | interrupt
deriving DecidableEq, Repr

/-- The `Stats` dataclass (`examples/bench.py` lines 11-19), with the same
defaults. -/
structure Stats where
  requests : ℕ := 0
  requests_correct : ℕ := 0
  requests_incorrect : ℕ := 0
  requests_failure : ℕ := 0
  mean_latency_secs : ℚ := 0
  total_secs : ℚ := 0
  last_failure : String := ""
deriving DecidableEq, Repr

/-- The `success_rate` property (`examples/bench.py` lines 21-23):
`requests_correct * 1.0 / (requests + 1)`. -/
def Stats.success_rate (s : Stats) : ℚ :=
  (s.requests_correct : ℚ) / ((s.requests : ℚ) + 1)

/-- The classification step of one loop iteration (`examples/bench.py` lines
53-65): exactly one counter pair is incremented per outcome; a
`KeyboardInterrupt` increments nothing (and stops the loop). -/
def step (o : Outcome) (s : Stats) : Stats :=
  match o with
  | .success =>
    { s with requests := s.requests + 1, requests_correct := s.requests_correct + 1 }
  | .assertFail =>
    { s with requests := s.requests + 1, requests_incorrect := s.requests_incorrect + 1 }
  | .otherFail m =>
    { s with
      requests := s.requests + 1
      requests_failure := s.requests_failure + 1
      last_failure := m }
  | .interrupt => s

/-- The timed loop of `bench_serial` (`examples/bench.py` lines 51-71).  The
trace `tr` gives, per iteration index, the callable's outcome and the
monotonic-clock span `(t2 - t1) / 1e9` of that iteration.  The loop breaks
after an interrupt or once accumulated `total_secs` exceeds the budget. -/
def loop (tr : ℕ → Outcome × ℚ) (seconds : ℚ) : ℕ → ℕ → Stats → Stats
  | _, 0, s => s
  | i, n + 1, s =>
    let o := (tr i).1
    let dt := (tr i).2
    let s1 := step o s
    let s2 := { s1 with total_secs := s1.total_secs + dt }
    if o = .interrupt ∨ s2.total_secs > seconds then s2
    else loop tr seconds (i + 1) n s2

/-- Models `bench_serial` (`examples/bench.py` lines 38-74).  The finalization at
line 73 is `stats.mean_latency_secs = stats.total_secs / stats.requests` —
division by the total request count; when no request was classified this is a
`ZeroDivisionError`, modelled as `none`. -/
def bench_serial (tr : ℕ → Outcome × ℚ) (requests_count : ℕ) (seconds : ℚ) :
    Option Stats :=
  let s := loop tr seconds 0 requests_count {}
  if s.requests = 0 then none
  else some { s with mean_latency_secs := s.total_secs / (s.requests : ℚ) }

/-- Models `bench_parallel` (`examples/bench.py` lines 77-127).  With one worker it
delegates to `bench_serial`.  Otherwise each worker runs `bench_serial` on its
own trace and adds `requests_correct`, `requests_incorrect`, `requests` and
`mean_latency_secs` into shared counters (a worker that dies on
`ZeroDivisionError` contributes nothing, modelled by `.getD 0`); the parent
then builds a `Stats` from the shared sums, the mean of the worker means, and
its own monotonic span from before the first start to after the last join.
`requests_failure` and `last_failure` are not aggregated: the returned
`Stats` keeps their defaults. -/
def bench_parallel (trs : List (ℕ → Outcome × ℚ)) (requests_count : ℕ)
    (seconds : ℚ) (parentSpan : ℚ) : Option Stats :=
  match trs with
  | [] => none
  | [tr] => bench_serial tr requests_count seconds
  | _ :: _ :: _ =>
    let results := trs.map fun tr => bench_serial tr requests_count seconds
    some
      { requests_correct := (results.map fun r => ((r.map Stats.requests_correct).getD 0)).sum,
        requests_incorrect := (results.map fun r => ((r.map Stats.requests_incorrect).getD 0)).sum,
        requests := (results.map fun r => ((r.map Stats.requests).getD 0)).sum,
        mean_latency_secs :=
          (results.map fun r => ((r.map Stats.mean_latency_secs).getD 0)).sum / (trs.length : ℚ),
        total_secs := parentSpan }

end Bench

namespace BenchmarkPy

/-! ## Benchmark runner, `benchmark/benchmark.py` -/
/-- The behaviour of one `callable()` inside `safe_call`: a returned unit
count, an `AssertionError`, or another exception. -/
inductive PyOutcome
  | ret (n : ℤ)
  | assertRaise
  | otherRaise (msg : String)
deriving DecidableEq, Repr

/-- Models `safe_call` (`benchmark/benchmark.py` lines 38-44): exceptions of either
kind are swallowed and become 0. -/
def safe_call : PyOutcome → ℤ
  | .ret n => n
  | .assertRaise => 0
  | .otherRaise _ => 0

/-- The `Stats` dataclass (`benchmark/benchmark.py` lines 12-18). -/
structure Stats where
  transmits_success : ℕ := 0
  transmits_failed : ℕ := 0
  requests : ℤ := 0
  mean_latency_secs : ℚ := 0
  total_secs : ℚ := 0
deriving DecidableEq, Repr

/-- The `failure_percent` property (`benchmark/benchmark.py` lines 20-23). -/
def Stats.failure_percent (s : Stats) : ℚ :=
  (s.transmits_failed : ℚ) * 100 /
    ((s.transmits_success : ℚ) + (s.transmits_failed : ℚ) + 1)

/-- The loop of `benchmark` (`benchmark/benchmark.py` lines 55-62): per
iteration, `successes = safe_call(callable)` is added to `requests`, and the
transmit is counted as success iff it is nonzero. -/
def loop : List (PyOutcome × ℚ) → Stats → Stats
  | [], s => s
  | (o, dt) :: rest, s =>
    let v := safe_call o
    loop rest
      { s with
        requests := s.requests + v,
        transmits_success := s.transmits_success + (if v ≠ 0 then 1 else 0),
        transmits_failed := s.transmits_failed + (if v = 0 then 1 else 0),
        total_secs := s.total_secs + dt }

/-- Models `benchmark` (`benchmark/benchmark.py` lines 47-66): run the loop for
`transmits_count` iterations, then finalize
`mean_latency_secs = total_secs / transmits_success if transmits_success > 0
else 0`. -/
def benchmark (tr : ℕ → PyOutcome × ℚ) (transmits_count : ℕ) : Stats :=
  let s := loop ((List.range transmits_count).map tr) {}
  { s with
    mean_latency_secs :=
      if s.transmits_success > 0 then s.total_secs / (s.transmits_success : ℚ) else 0 }

/-- Models `benchmark_parallel` (`benchmark/benchmark.py` lines 85-120): delegates
for one process; otherwise sums `transmits_success`, `transmits_failed` and
`requests` over workers, averages the worker means, and takes the parent's
own span as `total_secs`. -/
def benchmark_parallel (trs : List (ℕ → PyOutcome × ℚ)) (transmits_count : ℕ)
    (parentSpan : ℚ) : Option Stats :=
  match trs with
  | [] => none
  | [tr] => some (benchmark tr transmits_count)
  | _ :: _ :: _ =>
    let results := trs.map fun tr => benchmark tr transmits_count
    some
      { transmits_success := (results.map Stats.transmits_success).sum,
        transmits_failed := (results.map Stats.transmits_failed).sum,
        requests := (results.map Stats.requests).sum,
        mean_latency_secs := (results.map Stats.mean_latency_secs).sum / (trs.length : ℚ),
        total_secs := parentSpan }

end BenchmarkPy

namespace Bench

/-! ## Helper lemmas about the `examples/bench.py` runner -/
/-- The counter invariant of a `Stats` accumulator. -/
def inv (s : Stats) : Prop :=
  s.requests_correct + s.requests_incorrect + s.requests_failure = s.requests

end Bench

/-- The always-assertion-failing callable of the claim's Scenario E, with a
one-second iteration cost, under a generous time budget. -/
def allAssertTrace : ℕ → Bench.Outcome × ℚ := fun _ => (Bench.Outcome.assertFail, 1)

/-- A callable that always raises a non-assertion exception, one second per
iteration. -/
def otherFailTrace : ℕ → Bench.Outcome × ℚ := fun _ => (Bench.Outcome.otherFail "boom", 1)

/-- A callable that always succeeds, one second per iteration. -/
def oneSuccessTrace : ℕ → Bench.Outcome × ℚ := fun _ => (Bench.Outcome.success, 1)

theorem natToB_lt_255 (n : ℕ) : ∀ b ∈ natToB n, b < 255 := by
  induction n using Nat.strong_induction_on with
  | _ n ih =>
    match n with
    | 0 => intro b hb; simp [natToB] at hb
    | Nat.succ m =>
      intro b hb
      rw [natToB] at hb
      rcases List.mem_cons.mp hb with h | h
      · subst h; exact Nat.mod_lt _ (by decide)
      · exact ih ((m + 1) / 255) (Nat.div_lt_self (Nat.succ_pos m) (by decide)) b h

theorem decNat_natToB (n : ℕ) (rest : List ℕ) :
    decNat (natToB n ++ 255 :: rest) = some (n, rest) := by
  induction n using Nat.strong_induction_on with
  | _ n ih =>
    match n with
    | 0 => simp [natToB, decNat]
    | Nat.succ m =>
      rw [natToB]
      have hmod : (m + 1) % 255 < 255 := Nat.mod_lt _ (by decide)
      have hdiv := ih ((m + 1) / 255) (Nat.div_lt_self (Nat.succ_pos m) (by decide))
      simp only [List.cons_append, decNat, if_neg (Nat.ne_of_lt hmod), List.append_eq, hdiv]
      have : (m + 1) % 255 + 255 * ((m + 1) / 255) = m + 1 := Nat.mod_add_div _ _
      rw [this]

theorem decNat_encNat (n : ℕ) (rest : List ℕ) :
    decNat (encNat n ++ rest) = some (n, rest) := by
  have h : encNat n ++ rest = natToB n ++ 255 :: rest := by
    simp [encNat, List.append_assoc]
  rw [h, decNat_natToB]

theorem decNats_encNatList (l : List ℕ) (rest : List ℕ) :
    decNats l.length (encNatList l ++ rest) = some (l, rest) := by
  induction l generalizing rest with
  | nil => simp [encNatList, decNats]
  | cons n ns ih =>
    simp only [List.length_cons, encNatList, List.append_assoc, decNats,
      decNat_encNat, ih]

theorem decLen_encLen (l : List ℕ) (rest : List ℕ) :
    decLen (encLen l ++ rest) = some (l, rest) := by
  simp only [encLen, decLen, List.append_assoc, decNat_encNat, decNats_encNatList]

theorem decStr_encStr (s : String) (rest : List ℕ) :
    decStr (encStr s ++ rest) = some (s, rest) := by
  simp only [encStr, decStr, decLen_encLen, List.map_map]
  have h1 : s.toList.map (Char.ofNat ∘ Char.toNat) = s.toList := by
    refine List.map_congr_left ?_ |>.trans (List.map_id _)
    intro c _
    exact Char.ofNat_toNat c
  rw [h1]
  cases s
  rfl

theorem encNat_lt_256 (n : ℕ) : ∀ b ∈ encNat n, b < 256 := by
  intro b hb
  rcases List.mem_append.mp hb with h | h
  · exact Nat.lt_of_lt_of_le (natToB_lt_255 n b h) (by decide)
  · simp at h; omega

theorem encNatList_lt_256 (l : List ℕ) : ∀ b ∈ encNatList l, b < 256 := by
  induction l with
  | nil => intro b hb; simp [encNatList] at hb
  | cons n ns ih =>
    intro b hb
    rcases List.mem_append.mp hb with h | h
    · exact encNat_lt_256 n b h
    · exact ih b h

theorem encLen_lt_256 (l : List ℕ) : ∀ b ∈ encLen l, b < 256 := by
  intro b hb
  rcases List.mem_append.mp hb with h | h
  · exact encNat_lt_256 _ b h
  · exact encNatList_lt_256 _ b h

theorem encStr_lt_256 (s : String) : ∀ b ∈ encStr s, b < 256 :=
  encLen_lt_256 _

theorem npSave_lt_256 (a : NDArray) : ∀ b ∈ npSave a, b < 256 := by
  intro b hb
  simp only [npSave, List.append_assoc, List.mem_append] at hb
  rcases hb with h | h | h | h
  · simp only [npMagic, List.mem_cons, List.not_mem_nil, or_false] at h
    rcases h with h | h | h | h | h | h <;> omega
  · exact encStr_lt_256 _ b h
  · exact encLen_lt_256 _ b h
  · exact encLen_lt_256 _ b h

theorem imgSave_lt_256 (i : PILImage) : ∀ b ∈ imgSave i, b < 256 := by
  intro b hb
  simp only [imgSave, List.append_assoc, List.mem_append] at hb
  rcases hb with h | h | h | h | h | h
  · simp only [imgMagic, List.mem_cons, List.not_mem_nil, or_false] at h
    rcases h with h | h | h | h <;> omega
  · exact encStr_lt_256 _ b h
  · exact encStr_lt_256 _ b h
  · exact encNat_lt_256 _ b h
  · exact encNat_lt_256 _ b h
  · exact encLen_lt_256 _ b h

theorem npLoad_npSave (a : NDArray) : npLoad (npSave a) = some a := by
  have htake : (npSave a).take 6 = npMagic := by
    have : npSave a = npMagic ++ (encStr a.dtype ++ encLen a.shape ++ encLen a.data) := by
      simp [npSave, List.append_assoc]
    rw [this]
    have h6 : npMagic.length = 6 := rfl
    rw [← h6, List.take_left]
  have hdrop : (npSave a).drop 6 = encStr a.dtype ++ (encLen a.shape ++ (encLen a.data ++ [])) := by
    have : npSave a = npMagic ++ (encStr a.dtype ++ (encLen a.shape ++ (encLen a.data ++ []))) := by
      simp [npSave, List.append_assoc]
    rw [this]
    have h6 : npMagic.length = 6 := rfl
    rw [← h6, List.drop_left]
  rw [npLoad, if_pos htake, hdrop]
  simp only [decStr_encStr, decLen_encLen]

theorem imgOpen_imgSave (i : PILImage) : imgOpen (imgSave i) = some i := by
  have htake : (imgSave i).take 4 = imgMagic := by
    have : imgSave i = imgMagic ++ (encStr i.format ++ encStr i.mode ++ encNat i.width ++ encNat i.height ++ encLen i.pixels) := by
      simp [imgSave, List.append_assoc]
    rw [this]
    have h4 : imgMagic.length = 4 := rfl
    rw [← h4, List.take_left]
  have hdrop : (imgSave i).drop 4 =
      encStr i.format ++ (encStr i.mode ++ (encNat i.width ++ (encNat i.height ++ (encLen i.pixels ++ [])))) := by
    have : imgSave i = imgMagic ++ (encStr i.format ++ (encStr i.mode ++ (encNat i.width ++ (encNat i.height ++ (encLen i.pixels ++ []))))) := by
      simp [imgSave, List.append_assoc]
    rw [this]
    have h4 : imgMagic.length = 4 := rfl
    rw [← h4, List.drop_left]
  rw [imgOpen, if_pos htake, hdrop]
  simp only [decStr_encStr, decNat_encNat, decLen_encLen]

theorem imgSave_take6_ne (i : PILImage) : (imgSave i).take 6 ≠ npMagic := by
  intro h
  have h2 : (73 : ℕ) :: ((73 : ℕ) :: (42 : ℕ) :: (0 : ℕ) ::
      (encStr i.format ++ encStr i.mode ++ encNat i.width ++ encNat i.height ++ encLen i.pixels)).take 5 = npMagic := h
  have h3 := List.head_eq_of_cons_eq h2
  simp [npMagic] at h3

theorem decC_encC : ∀ n < 64, decC (encC n) = some n := by decide

theorem encC_ne_pad : ∀ n < 64, encC n ≠ '=' := by decide

theorem b64d_b64e (bs : List ℕ) (h : ∀ b ∈ bs, b < 256) : b64d (b64e bs) = some bs := by
  induction bs using b64e.induct with
  | case1 => rfl
  | case2 b0 =>
    have hb0 : b0 < 256 := h b0 (by simp)
    have e0 := decC_encC (b0 / 4) (by omega)
    have e1 := decC_encC (b0 % 4 * 16) (by omega)
    simp only [b64e, b64d, e0, e1, and_self, if_true]
    have hev : b0 / 4 * 4 + b0 % 4 * 16 / 16 = b0 := by omega
    rw [hev]
  | case3 b0 b1 =>
    have hb0 : b0 < 256 := h b0 (by simp)
    have hb1 : b1 < 256 := h b1 (by simp)
    have e0 := decC_encC (b0 / 4) (by omega)
    have e1 := decC_encC (b0 % 4 * 16 + b1 / 16) (by omega)
    have e2 := decC_encC (b1 % 16 * 4) (by omega)
    have ne2 := encC_ne_pad (b1 % 16 * 4) (by omega)
    simp only [b64e, b64d, e0, e1, e2, ne2, false_and, if_false, and_self, if_true]
    have hv0 : b0 / 4 * 4 + (b0 % 4 * 16 + b1 / 16) / 16 = b0 := by omega
    have hv1 : (b0 % 4 * 16 + b1 / 16) % 16 * 16 + b1 % 16 * 4 / 4 = b1 := by omega
    rw [hv0, hv1]
  | case4 b0 b1 b2 rest ih =>
    have hb0 : b0 < 256 := h b0 (by simp)
    have hb1 : b1 < 256 := h b1 (by simp)
    have hb2 : b2 < 256 := h b2 (by simp)
    have hrest : ∀ b ∈ rest, b < 256 := fun b hb => h b (by simp [hb])
    have e0 := decC_encC (b0 / 4) (by omega)
    have e1 := decC_encC (b0 % 4 * 16 + b1 / 16) (by omega)
    have e2 := decC_encC (b1 % 16 * 4 + b2 / 64) (by omega)
    have e3 := decC_encC (b2 % 64) (by omega)
    have ne2 := encC_ne_pad (b1 % 16 * 4 + b2 / 64) (by omega)
    have ne3 := encC_ne_pad (b2 % 64) (by omega)
    simp only [b64e, b64d, e0, e1, e2, e3, ne2, ne3, false_and, if_false, ih hrest]
    have hv0 : b0 / 4 * 4 + (b0 % 4 * 16 + b1 / 16) / 16 = b0 := by omega
    have hv1 : (b0 % 4 * 16 + b1 / 16) % 16 * 16 + (b1 % 16 * 4 + b2 / 64) / 4 = b1 := by omega
    have hv2 : (b1 % 16 * 4 + b2 / 64) % 4 * 64 + b2 % 64 = b2 := by omega
    rw [hv0, hv1, hv2]

namespace Bench

theorem step_inv {o : Outcome} {s : Stats} (h : inv s) : inv (step o s) := by
  cases o <;> simp [inv, step] at h ⊢ <;> omega

theorem step_total (o : Outcome) (s : Stats) : (step o s).total_secs = s.total_secs := by
  cases o <;> rfl

theorem step_counts (o : Outcome) (s : Stats) (h : o ≠ .interrupt) :
    (step o s).requests = s.requests + 1 ∧
    (step o s).requests_correct + (step o s).requests_incorrect +
      (step o s).requests_failure
      = s.requests_correct + s.requests_incorrect + s.requests_failure + 1 := by
  cases o <;> simp [step] at h ⊢ <;> omega

theorem loop_inv (tr : ℕ → Outcome × ℚ) (secs : ℚ) :
    ∀ (n i : ℕ) (s : Stats), inv s → inv (loop tr secs i n s) := by
  intro n
  induction n with
  | zero => intro i s h; simpa [loop] using h
  | succ m ih =>
    intro i s h
    have hs2 : inv { step (tr i).1 s with
        total_secs := (step (tr i).1 s).total_secs + (tr i).2 } := by
      have := step_inv (o := (tr i).1) h
      simpa [inv] using this
    rw [loop]
    split
    · exact hs2
    · exact ih _ _ hs2

theorem loop_total_nonneg (tr : ℕ → Outcome × ℚ) (secs : ℚ)
    (hdt : ∀ j, 0 ≤ (tr j).2) :
    ∀ (n i : ℕ) (s : Stats), 0 ≤ s.total_secs → 0 ≤ (loop tr secs i n s).total_secs := by
  intro n
  induction n with
  | zero => intro i s h; simpa [loop] using h
  | succ m ih =>
    intro i s h
    have hs2 : (0 : ℚ) ≤ ({ step (tr i).1 s with
        total_secs := (step (tr i).1 s).total_secs + (tr i).2 } : Stats).total_secs := by
      simp only [step_total]
      exact add_nonneg h (hdt i)
    rw [loop]
    split
    · exact hs2
    · exact ih _ _ hs2

theorem bench_serial_some {tr : ℕ → Outcome × ℚ} {n : ℕ} {secs : ℚ} {s : Stats}
    (h : bench_serial tr n secs = some s) :
    s.mean_latency_secs = s.total_secs / (s.requests : ℚ) ∧ 0 < s.requests ∧ inv s := by
  unfold bench_serial at h
  by_cases h0 : (loop tr secs 0 n {}).requests = 0
  · rw [if_pos h0] at h
    exact absurd h (by simp)
  · rw [if_neg h0] at h
    have hsome := Option.some.inj h
    have hinv : inv (loop tr secs 0 n {}) := loop_inv tr secs n 0 {} (by simp [inv])
    subst hsome
    refine ⟨rfl, Nat.pos_of_ne_zero h0, ?_⟩
    simpa [inv] using hinv

theorem bench_serial_total_nonneg {tr : ℕ → Outcome × ℚ} {n : ℕ} {secs : ℚ} {s : Stats}
    (h : bench_serial tr n secs = some s) (hdt : ∀ j, 0 ≤ (tr j).2) :
    0 ≤ s.total_secs := by
  unfold bench_serial at h
  by_cases h0 : (loop tr secs 0 n {}).requests = 0
  · rw [if_pos h0] at h
    exact absurd h (by simp)
  · rw [if_neg h0] at h
    have hsome := Option.some.inj h
    subst hsome
    exact loop_total_nonneg tr secs hdt n 0 {} (by simp)

end Bench

/-! ## Remaining helper lemmas -/
theorem npSave_take6 (a : NDArray) : (npSave a).take 6 = npMagic := by
  have h : npSave a = npMagic ++ (encStr a.dtype ++ encLen a.shape ++ encLen a.data) := by
    simp [npSave, List.append_assoc]
  rw [h]
  have h6 : npMagic.length = 6 := rfl
  rw [← h6, List.take_left]

theorem dictGet_map (kvs : List (String × PVal)) (key : String) (f : PVal → PVal) :
    dictGet (kvs.map fun kv => (kv.1, f kv.2)) key = (dictGet kvs key).map f := by
  induction kvs with
  | nil => rfl
  | cons kv rest ih =>
    by_cases h : kv.1 = key <;> simp [dictGet, h, ih]

/-! ## Concrete benchmark runs (evaluation lemmas) -/
theorem outcome_assert_ne : (Bench.Outcome.assertFail = Bench.Outcome.interrupt) = False := by
  simp

theorem outcome_success_ne : (Bench.Outcome.success = Bench.Outcome.interrupt) = False := by
  simp

theorem outcome_other_ne (m : String) :
    (Bench.Outcome.otherFail m = Bench.Outcome.interrupt) = False := by
  simp

set_option maxHeartbeats 2000000 in
theorem bench_serial_allAssert_eval :
    Bench.bench_serial allAssertTrace 100 1000 =
      some { requests := 100, requests_correct := 0, requests_incorrect := 100,
             requests_failure := 0, mean_latency_secs := 1, total_secs := 100,
             last_failure := "" } := by
  norm_num [Bench.bench_serial, Bench.loop, Bench.step, allAssertTrace, outcome_assert_ne]

theorem bench_serial_oneSuccess_eval :
    Bench.bench_serial oneSuccessTrace 1 1000 =
      some { requests := 1, requests_correct := 1, requests_incorrect := 0,
             requests_failure := 0, mean_latency_secs := 1, total_secs := 1,
             last_failure := "" } := by
  norm_num [Bench.bench_serial, Bench.loop, Bench.step, oneSuccessTrace, outcome_success_ne]

theorem bench_serial_otherFail_eval :
    Bench.bench_serial otherFailTrace 1 1000 =
      some { requests := 1, requests_correct := 0, requests_incorrect := 0,
             requests_failure := 1, mean_latency_secs := 1, total_secs := 1,
             last_failure := "boom" } := by
  norm_num [Bench.bench_serial, Bench.loop, Bench.step, otherFailTrace, outcome_other_ne]

theorem bench_parallel_otherFail_eval :
    Bench.bench_parallel [otherFailTrace, otherFailTrace] 1 1000 5 =
      some { requests := 2, requests_correct := 0, requests_incorrect := 0,
             requests_failure := 0, mean_latency_secs := 1, total_secs := 5,
             last_failure := "" } := by
  show some _ = _
  norm_num [bench_serial_otherFail_eval, List.map_cons, List.map_nil]

/-! ## Claims -/
/-- C1, counterexample: running `bench_serial` for 100 iterations with a
callable that always raises an `AssertionError`, each iteration costing one
second of wall time, does end with 100 validation failures and 0 successes —
but the mean latency is `total_secs / requests = 100 / 100 = 1`, not 0:
`bench_serial` divides the wall time by the total request count, not by the
success count, so the claimed `meanLatency == 0` is false. -/
theorem c1_counterexample :
    Bench.bench_serial allAssertTrace 100 1000 =
      some { requests := 100, requests_correct := 0, requests_incorrect := 100,
             requests_failure := 0, mean_latency_secs := 1, total_secs := 100,
             last_failure := "" } ∧
    (1 : ℚ) ≠ 0 :=
  ⟨bench_serial_allAssert_eval, by norm_num⟩

/-- C1, amended: in `examples/bench.py`, `bench_serial` finalizes
`mean_latency_secs = total_secs / requests` — the accumulated wall time
divided by the *total* classified request count, with a `ZeroDivisionError`
(not 0) when no request was classified; the `totalWallTime / successes`
formula with a zero guard belongs to `benchmark/benchmark.py`'s `benchmark`,
whose mean is 0 when there are no successes.  In the Scenario E run the stats
end with 100 validation failures and 0 successes, and the mean latency equals
`total_secs / 100` (1 with one-second iterations), not 0. -/
theorem c1_mean_latency (tr : ℕ → Bench.Outcome × ℚ)
    (tr2 : ℕ → BenchmarkPy.PyOutcome × ℚ) (n m : ℕ) (secs : ℚ) (s : Bench.Stats) :
    (Bench.bench_serial tr n secs = some s →
      s.mean_latency_secs = s.total_secs / (s.requests : ℚ) ∧ 0 < s.requests) ∧
    Bench.bench_serial tr 0 secs = none ∧
    ((BenchmarkPy.benchmark tr2 m).transmits_success = 0 →
      (BenchmarkPy.benchmark tr2 m).mean_latency_secs = 0) ∧
    ((BenchmarkPy.benchmark tr2 m).mean_latency_secs =
      if (BenchmarkPy.benchmark tr2 m).transmits_success > 0 then
        (BenchmarkPy.benchmark tr2 m).total_secs /
          ((BenchmarkPy.benchmark tr2 m).transmits_success : ℚ)
      else 0) ∧
    Bench.bench_serial allAssertTrace 100 1000 =
      some { requests := 100, requests_correct := 0, requests_incorrect := 100,
             requests_failure := 0, mean_latency_secs := 1, total_secs := 100,
             last_failure := "" } := by
  refine ⟨?_, rfl, ?_, rfl, bench_serial_allAssert_eval⟩
  · intro h
    have hs := Bench.bench_serial_some h
    exact ⟨hs.1, hs.2.1⟩
  · intro h
    have h' : (BenchmarkPy.loop ((List.range m).map tr2) {}).transmits_success = 0 := h
    show (if (BenchmarkPy.loop ((List.range m).map tr2) {}).transmits_success > 0
      then _ else (0 : ℚ)) = 0
    rw [if_neg (by omega)]

/-- C1, witness for the amended claim at a concrete run: the Scenario E run
(100 always-asserting iterations at one second each) satisfies
`mean_latency_secs = total_secs / requests` with a positive request count. -/
theorem c1_mean_latency_witness :
    ({ requests := 100, requests_correct := 0, requests_incorrect := 100,
       requests_failure := 0, mean_latency_secs := 1, total_secs := 100,
       last_failure := "" } : Bench.Stats).mean_latency_secs =
      ({ requests := 100, requests_correct := 0, requests_incorrect := 100,
         requests_failure := 0, mean_latency_secs := 1, total_secs := 100,
         last_failure := "" } : Bench.Stats).total_secs /
        (({ requests := 100, requests_correct := 0, requests_incorrect := 100,
            requests_failure := 0, mean_latency_secs := 1, total_secs := 100,
            last_failure := "" } : Bench.Stats).requests : ℚ) ∧
    0 < ({ requests := 100, requests_correct := 0, requests_incorrect := 100,
           requests_failure := 0, mean_latency_secs := 1, total_secs := 100,
           last_failure := "" } : Bench.Stats).requests :=
  (c1_mean_latency allAssertTrace (fun _ => (BenchmarkPy.PyOutcome.assertRaise, 1))
    100 1 1000 _).1 bench_serial_allAssert_eval

/-- C4: for every finalized `Stats` from a `bench_serial` run, the derived
success rate equals `requests_correct / (requests + 1)`; the `+1` denominator
is never zero (even on an empty run no division by zero can occur in this
property), and on any run with at least one success the rate strictly
underestimates the true rate `requests_correct / requests`. -/
theorem c4_success_rate (tr : ℕ → Bench.Outcome × ℚ) (n : ℕ) (secs : ℚ)
    (s : Bench.Stats) (h : Bench.bench_serial tr n secs = some s) :
    s.success_rate = (s.requests_correct : ℚ) / ((s.requests : ℚ) + 1) ∧
    ((s.requests : ℚ) + 1) ≠ 0 ∧
    s.requests_correct ≤ s.requests ∧
    (0 < s.requests_correct →
      s.success_rate < (s.requests_correct : ℚ) / (s.requests : ℚ)) := by
  obtain ⟨-, -, hinv⟩ := Bench.bench_serial_some h
  have hle : s.requests_correct ≤ s.requests := by
    simp only [Bench.inv] at hinv
    omega
  refine ⟨rfl, by positivity, hle, ?_⟩
  intro hpos
  have hreq : 0 < s.requests := lt_of_lt_of_le hpos hle
  have h1 : (0 : ℚ) < (s.requests_correct : ℚ) := by exact_mod_cast hpos
  have h2 : (0 : ℚ) < (s.requests : ℚ) := by exact_mod_cast hreq
  exact div_lt_div_of_pos_left h1 h2 (by linarith)

/-- C4, witness at a concrete run (one successful one-second iteration):
the finalized stats satisfy all four parts of the success-rate property. -/
theorem c4_success_rate_witness :
    ({ requests := 1, requests_correct := 1, requests_incorrect := 0,
       requests_failure := 0, mean_latency_secs := 1, total_secs := 1,
       last_failure := "" } : Bench.Stats).success_rate =
      ((1 : ℕ) : ℚ) / (((1 : ℕ) : ℚ) + 1) ∧
    (((1 : ℕ) : ℚ) + 1) ≠ 0 ∧
    (1 : ℕ) ≤ 1 ∧
    (0 < (1 : ℕ) →
      ({ requests := 1, requests_correct := 1, requests_incorrect := 0,
         requests_failure := 0, mean_latency_secs := 1, total_secs := 1,
         last_failure := "" } : Bench.Stats).success_rate < ((1 : ℕ) : ℚ) / ((1 : ℕ) : ℚ)) :=
  c4_success_rate oneSuccessTrace 1 1000 _ bench_serial_oneSuccess_eval

/-- C5: `bench_parallel` with two workers, each of which performs one
iteration raising a non-assertion exception, returns aggregated stats whose
`requests` field correctly sums to 2 but whose `requests_failure` field is 0 —
the aggregator never sums the workers' `requests_failure` counters (each
worker recorded `requests_failure = 1`), so the aggregate violates the
`requestsSucceeded + requestsFailedValidation + requestsFailedOther ==
requestsTotal` invariant that every serial run maintains.  The mean-latency
and wall-time parts of the claim do hold here: the aggregated mean is the
unweighted mean of the worker means `(1 + 1) / 2 = 1`, and `total_secs` is
the parent's own span (5), not the workers' sum. -/
theorem c5_parallel_drops_failures :
    Bench.bench_parallel [otherFailTrace, otherFailTrace] 1 1000 5 =
      some { requests := 2, requests_correct := 0, requests_incorrect := 0,
             requests_failure := 0, mean_latency_secs := 1, total_secs := 5,
             last_failure := "" } ∧
    (Bench.bench_serial otherFailTrace 1 1000).map Bench.Stats.requests_failure
      = some 1 ∧
    (0 : ℕ) ≠ 1 + 1 := by
  refine ⟨bench_parallel_otherFail_eval, ?_, by omega⟩
  rw [bench_serial_otherFail_eval]
  rfl

/-- C6: every non-interrupted iteration of `bench_serial` increments the
total-request counter by exactly one and the three outcome counters by
exactly one in total; consequently any finalized run satisfies
`requests_correct + requests_incorrect + requests_failure = requests`, and
when every iteration's measured wall-time span is nonnegative (as a monotonic
clock guarantees) the finalized mean latency is nonnegative. -/
theorem c6_stats_invariant (tr : ℕ → Bench.Outcome × ℚ) (n : ℕ) (secs : ℚ)
    (s : Bench.Stats) (o : Bench.Outcome) (s0 : Bench.Stats) :
    (o ≠ .interrupt →
      (Bench.step o s0).requests = s0.requests + 1 ∧
      (Bench.step o s0).requests_correct + (Bench.step o s0).requests_incorrect +
        (Bench.step o s0).requests_failure
        = s0.requests_correct + s0.requests_incorrect + s0.requests_failure + 1) ∧
    (Bench.bench_serial tr n secs = some s →
      s.requests_correct + s.requests_incorrect + s.requests_failure = s.requests ∧
      ((∀ j, 0 ≤ (tr j).2) → 0 ≤ s.mean_latency_secs)) := by
  constructor
  · exact Bench.step_counts o s0
  · intro h
    obtain ⟨hmean, hpos, hinv⟩ := Bench.bench_serial_some h
    refine ⟨hinv, ?_⟩
    intro hdt
    have htot : 0 ≤ s.total_secs := Bench.bench_serial_total_nonneg h hdt
    rw [hmean]
    positivity

/-- C6, witness at a concrete run (one successful one-second iteration) and a
concrete step (an assertion failure on fresh stats). -/
theorem c6_stats_invariant_witness :
    ((Bench.step Bench.Outcome.assertFail {}).requests = ({} : Bench.Stats).requests + 1 ∧
      (Bench.step Bench.Outcome.assertFail {}).requests_correct +
        (Bench.step Bench.Outcome.assertFail {}).requests_incorrect +
        (Bench.step Bench.Outcome.assertFail {}).requests_failure
        = ({} : Bench.Stats).requests_correct + ({} : Bench.Stats).requests_incorrect +
          ({} : Bench.Stats).requests_failure + 1) ∧
    ((1 : ℕ) + 0 + 0 = 1 ∧
      ((∀ j, 0 ≤ (oneSuccessTrace j).2) →
        0 ≤ ({ requests := 1, requests_correct := 1, requests_incorrect := 0,
               requests_failure := 0, mean_latency_secs := 1, total_secs := 1,
               last_failure := "" } : Bench.Stats).mean_latency_secs)) :=
  ⟨(c6_stats_invariant oneSuccessTrace 1 1000
      { requests := 1, requests_correct := 1, requests_incorrect := 0,
        requests_failure := 0, mean_latency_secs := 1, total_secs := 1,
        last_failure := "" } Bench.Outcome.assertFail {}).1 (by simp),
   (c6_stats_invariant oneSuccessTrace 1 1000
      { requests := 1, requests_correct := 1, requests_incorrect := 0,
        requests_failure := 0, mean_latency_secs := 1, total_secs := 1,
        last_failure := "" } Bench.Outcome.assertFail {}).2
     bench_serial_oneSuccess_eval⟩

/-- C2, counterexample: the ucall library client performs no envelope
validation on receive — a response with no `jsonrpc` key at all and no `id`
key still has its result surfaced by `Response.json`.  Instantiated at the
response `{result: 4}` against request id 7, refuting "for every received
response, the client validates that the envelope version field is present and
truthy and that the response id equals the id of the request". -/
theorem c2_counterexample :
    ¬ (∀ (r : RespObj) (reqId : ℤ),
        (Response.json (Client_recv r)).isOk = true →
        truthyOpt r.jsonrpc = true ∧ scalarEqIntOpt r.id reqId = true) := by
  intro h
  have := h { result := some (.int 4) } 7 rfl
  simp [truthyOpt] at this

/-- C2, amended: envelope validation lives in the benchmark TCP client, not
the library client.  `ClientSumTCP.recv` returns successfully only when the
response object's version field is present and truthy, its id equals the
request identity, and its result converts to the expected integer; the ucall
library client performs no version/id check on receive, and raises the error
carried by the response (code and message) exactly when an `error` key is
present and the result is accessed through `Response.json`, returning the
`result` field (or a `KeyError`) otherwise. -/
theorem c2_validation (o : RespObj) (identity expected : ℤ) (r : RespObj) :
    (recvSum (.obj o) identity expected = .ok 1 →
      truthyOpt o.jsonrpc = true ∧ scalarEqIntOpt o.id identity = true ∧
      ∃ rv, o.result = some rv ∧ pyInt rv = .ok expected) ∧
    (∀ e, r.error = some e →
      Response.json (Client_recv r) = .error (.runtimeError e.code e.message)) ∧
    (r.error = none → Response.json (Client_recv r) =
      (match r.result with
       | some v => Except.ok v
       | none => Except.error (PyErr.keyError "result"))) := by
  refine ⟨?_, ?_, ?_⟩
  · intro h
    unfold recvSum at h
    rcases hres : o.result with _ | rv <;> rw [docGet] at h <;> simp [hres] at h
    rcases hint : pyInt rv with e | z <;> rw [hint] at h <;> simp at h
    rcases hj : o.jsonrpc with _ | jv <;> rw [docGet] at h <;> simp [hj] at h
    rcases htr : truthy jv with _ | _ <;> rw [htr] at h <;> simp at h
    rcases hid : o.id with _ | iv <;> rw [docGet] at h <;> simp [hid] at h
    rcases heq : scalarEqInt iv identity with _ | _ <;> rw [heq] at h <;> simp at h
    exact ⟨by simp [truthyOpt, htr], by simp [scalarEqIntOpt, heq],
      rv, rfl, by rw [hint, h]⟩
  · intro e he
    simp [Response.json, Response.raise_for_status, Client_recv, he]
  · intro he
    rcases hres : r.result with _ | v <;>
      simp [Response.json, Response.raise_for_status, Client_recv, he, hres]

/-- C2, witness for the amended claim: a well-formed response accepted by
`ClientSumTCP.recv` at identity 7 and expected sum 9 has a truthy version, a
matching id and the expected result; and `Response.json` on a response whose
`error` is `{code: -32601, message: "Method not found"}` raises that error. -/
theorem c2_validation_witness :
    (truthyOpt (some (Scalar.str "2.0")) = true ∧
     scalarEqIntOpt (some (Scalar.int 7)) 7 = true ∧
     ∃ rv, (some (Scalar.int 9) : Option Scalar) = some rv ∧ pyInt rv = .ok 9) ∧
    Response.json (Client_recv { error := some ⟨-32601, "Method not found"⟩ }) =
      .error (.runtimeError (-32601) "Method not found") :=
  ⟨(c2_validation
      { jsonrpc := some (.str "2.0"), id := some (.int 7), result := some (.int 9) }
      7 9 { error := some ⟨-32601, "Method not found"⟩ }).1 rfl,
   (c2_validation
      { jsonrpc := some (.str "2.0"), id := some (.int 7), result := some (.int 9) }
      7 9 { error := some ⟨-32601, "Method not found"⟩ }).2.1
     ⟨-32601, "Method not found"⟩ rfl⟩

/-- C3, counterexample: at a state with an open handle (descriptor 0) whose
peer has closed the connection, `_make_socket` replaces the handle with a
fresh socket but the set of explicitly closed descriptors stays empty — the
stale handle is not closed before being replaced, refuting the claim. -/
theorem c3_counterexample :
    ¬ (∀ (st : ConnState) (fd : ℕ), st.sock = some fd →
        socket_is_closed st = true → fd ∈ (make_socket st).closedFds) := by
  intro h
  have := h ⟨some 0, true, 1, []⟩ 0 rfl rfl
  simp [make_socket, socket_is_closed] at this

/-- C3, amended: when the connection manager re-establishes a connection, it
replaces the stale handle with a freshly created socket *without* closing it:
both `_make_socket` (ucall) and the reconnection step of `_send` (ujrpc)
leave the set of explicitly closed descriptors unchanged, so the prior
descriptor is leaked. -/
theorem c3_no_close (st : ConnState) :
    (make_socket st).closedFds = st.closedFds ∧
    (send_reconnect st).closedFds = st.closedFds ∧
    (socket_is_closed st = true →
      (make_socket st).sock = some st.nextFd ∧
      (send_reconnect st).sock = some st.nextFd) := by
  refine ⟨?_, ?_, ?_⟩
  · unfold make_socket
    split <;> rfl
  · unfold send_reconnect
    split <;> rfl
  · intro h
    constructor
    · unfold make_socket
      rw [if_pos h]
    · unfold send_reconnect
      rw [if_pos h]

/-- C3, witness: the amended claim at the peer-closed state with current
descriptor 0 — nothing is closed and the handle becomes descriptor 1. -/
theorem c3_no_close_witness :
    (make_socket ⟨some 0, true, 1, []⟩).closedFds = [] ∧
    (send_reconnect ⟨some 0, true, 1, []⟩).closedFds = [] ∧
    (socket_is_closed ⟨some 0, true, 1, []⟩ = true →
      (make_socket ⟨some 0, true, 1, []⟩).sock = some 1 ∧
      (send_reconnect ⟨some 0, true, 1, []⟩).sock = some 1) :=
  c3_no_close ⟨some 0, true, 1, []⟩

/-- C7: the (spec-modelled) server's batch response contains exactly one
entry per id-bearing request, in request order (it is the image of the
id-bearing subsequence of the batch); the benchmark's 8-entry batch has 7
id-bearing entries (entry 1 is a notification); and the batch client accepts
any response list of the expected length whose first entry has a truthy
version and whose first and last results equal the expected value — middle
entries are not validated. -/
theorem c7_batch (handle : ReqObj → RespObj) (bs : List ReqObj) (a b pid : ℤ)
    (rs : List RespObj) (expected : ℤ) (n : ℕ) :
    (serverBatch handle bs).length = countIds bs ∧
    serverBatch handle bs = (bs.filter hasId).map handle ∧
    (bs.filter hasId).Sublist bs ∧
    (benchBatch a b pid).length = 8 ∧
    countIds (benchBatch a b pid) = 7 ∧
    ((rs.length = n ∧
      (∃ r0, rs.head? = some r0 ∧ truthyOpt r0.jsonrpc = true ∧
        ∃ fv, r0.result = some fv ∧ pyInt fv = .ok expected) ∧
      (∃ rl, rs.getLast? = some rl ∧
        ∃ lv, rl.result = some lv ∧ pyInt lv = .ok expected)) →
      recvSumBatch (.arr rs) expected n = .ok n) := by
  refine ⟨?_, rfl, List.filter_sublist bs, rfl, rfl, ?_⟩
  · simp [serverBatch, countIds, List.countP_eq_length_filter]
  · rintro ⟨hlen, ⟨r0, h0, hj, fv, hfv, hint⟩, ⟨rl, hl, lv, hlv, hlint⟩⟩
    unfold recvSumBatch
    rw [docFirst, docLast]
    simp only [h0, hl, hfv, hlv, hint, hlint, isArr, arrLen, hlen, hj]
    simp

/-- C7, witness: a 3-entry response whose middle entry carries a wrong result
(999) is accepted by the batch client when the first and last results equal
the expected value 5 — only the first and last entries are validated. -/
theorem c7_batch_witness :
    recvSumBatch
      (JsonDoc.arr
        [ { jsonrpc := some (.str "2.0"), result := some (.int 5) },
          { result := some (.int 999) },
          { result := some (.int 5) } ]) 5 3 = .ok 3 :=
  (c7_batch (fun _ => {}) [] 1 2 3
    [ { jsonrpc := some (.str "2.0"), result := some (.int 5) },
      { result := some (.int 999) },
      { result := some (.int 5) } ] 5 3).2.2.2.2.2
    ⟨rfl,
     ⟨{ jsonrpc := some (.str "2.0"), result := some (.int 5) }, rfl, rfl,
      .int 5, rfl, rfl⟩,
     ⟨{ result := some (.int 5) }, rfl, .int 5, rfl, rfl⟩⟩

/-- C8: decoding the base64 payload produced for a numeric array and sniffing
it on the inbound path yields the array back exactly (dtype, shape and data
preserved); for an image the round trip yields the image with pixels, mode
and size preserved (its container format is the one it was saved with, i.e.
defaulted to `'tiff'` when it was unset, which PIL image equality ignores);
and the ucall user-directed inbound path `Response.numpy` also inverts
`Request._pack_numpy`. -/
theorem c8_roundtrip (a : NDArray) (i : PILImage) :
    unpackResult (pack_numpy a) = some (some (UnpackVal.arr a)) ∧
    unpackResult (pack_pillow i) = some (some (UnpackVal.img (fmtDefault i))) ∧
    (fmtDefault i).mode = i.mode ∧ (fmtDefault i).pixels = i.pixels ∧
    (fmtDefault i).width = i.width ∧ (fmtDefault i).height = i.height ∧
    response_numpy (pack_numpy a) = some a := by
  have hb1 : b64d (b64e (npSave a)) = some (npSave a) := b64d_b64e _ (npSave_lt_256 a)
  have hb2 : b64d (b64e (imgSave (fmtDefault i))) = some (imgSave (fmtDefault i)) :=
    b64d_b64e _ (imgSave_lt_256 _)
  refine ⟨?_, ?_, ?_, ?_, ?_, ?_, ?_⟩
  · simp [unpackResult, pack_numpy, hb1, unpack, npSave_take6, npLoad_npSave]
  · simp [unpackResult, pack_pillow, hb2, unpack, imgSave_take6_ne, imgOpen_imgSave]
  · unfold fmtDefault; split <;> rfl
  · unfold fmtDefault; split <;> rfl
  · unfold fmtDefault; split <;> rfl
  · unfold fmtDefault; split <;> rfl
  · simp [response_numpy, pack_numpy, hb1, npLoad_npSave]

/-- C9: the dynamic call interface raises an `AssertionError` exactly when
both positional and keyword parameters are non-empty, and in that case
nothing is handed to the transport; when at most one kind is supplied the
call is built (with the supplied kind as params) and sent. -/
theorem c9_mixed_params (name : String) (args : List Scalar)
    (kvs : List (String × Scalar)) :
    ((∃ msg, (call_invoke name args kvs).1 = .error (.assertError msg)) ↔
      (args ≠ [] ∧ kvs ≠ [])) ∧
    (args ≠ [] ∧ kvs ≠ [] → (call_invoke name args kvs).2 = []) ∧
    ((args = [] ∨ kvs = []) →
      ∃ c, (call_invoke name args kvs).1 = .ok c ∧
        (call_invoke name args kvs).2 = [c]) := by
  by_cases ha : args = [] <;> by_cases hk : kvs = [] <;>
    simp [call_invoke, call_build, ha, hk]

/-- C9, witness: supplying both a positional argument and a keyword argument
sends nothing; supplying only a keyword argument produces a sent call. -/
theorem c9_mixed_params_witness :
    (call_invoke "sum" [Scalar.int 1] [("b", Scalar.int 2)]).2 = [] ∧
    ∃ c, (call_invoke "sum" [] [("b", Scalar.int 2)]).1 = .ok c ∧
      (call_invoke "sum" [] [("b", Scalar.int 2)]).2 = [c] :=
  ⟨(c9_mixed_params "sum" [Scalar.int 1] [("b", Scalar.int 2)]).2.1
     ⟨by simp, by simp⟩,
   (c9_mixed_params "sum" [] [("b", Scalar.int 2)]).2.2 (Or.inl rfl)⟩

/-- C10, counterexample: the ujrpc `Client.pack` does not substitute bytes
values — a params sequence holding the bytes value `[1, 2, 3]` at index 0 is
returned with the bytes still in place, not a base64 string, refuting the
claim for the bytes case of that codec. -/
theorem c10_counterexample :
    ¬ (∀ (vs : List PVal) (k : ℕ) (bs : List ℕ),
        vs[k]? = some (.bytes bs) →
        ∃ s, paramsIdx (Client_pack (.seq vs)) k = some (.scalar (.str s))) := by
  intro h
  rcases h [PVal.bytes [1, 2, 3]] 0 [1, 2, 3] rfl with ⟨s, hs⟩
  simp [Client_pack, pack_value_ujrpc, paramsIdx] at hs

/-- C10, amended: the outbound codec mutates the caller's request in place —
after `Request.__init__`, the caller's params container, `request.data` and
`request.packed` are all the same packed object, in which ucall's
`Request.pack` has replaced every numpy array, image and bytes entry (in a
dict or in a sequence) by its base64 string; ujrpc's `Client.pack` does the
same for arrays and images but leaves bytes entries untouched. -/
theorem c10_pack_in_place (p : Params) (vs : List PVal) (k : ℕ)
    (kvs : List (String × PVal)) (key : String) (a : NDArray) (bs : List ℕ) :
    (Request_init p).1 = (Request_init p).2.data ∧
    (Request_init p).2.data = (Request_init p).2.packed ∧
    (Request_init p).1 = Request_pack p ∧
    (vs[k]? = some (.ndarray a) →
      paramsIdx (Request_pack (.seq vs)) k =
        some (.scalar (.str (String.mk (pack_numpy a))))) ∧
    (dictGet kvs key = some (.bytes bs) →
      paramsKey (Request_pack (.dict kvs)) key =
        some (.scalar (.str (String.mk (pack_bytes bs))))) ∧
    (vs[k]? = some (.bytes bs) →
      paramsIdx (Client_pack (.seq vs)) k = some (.bytes bs)) := by
  refine ⟨rfl, rfl, rfl, ?_, ?_, ?_⟩
  · intro h
    simp [Request_pack, paramsIdx, List.getElem?_map, h, pack_value_ucall]
  · intro h
    show dictGet (kvs.map fun kv => (kv.1, pack_value_ucall kv.2)) key = _
    rw [dictGet_map, h]
    rfl
  · intro h
    simp [Client_pack, paramsIdx, List.getElem?_map, h, pack_value_ujrpc]

/-- C10, witness: packing a sequence holding one numpy array replaces it with
its base64 string in ucall; a dict entry holding bytes is likewise replaced;
and ujrpc leaves a bytes entry untouched. -/
theorem c10_pack_in_place_witness :
    paramsIdx (Request_pack (.seq [PVal.ndarray ⟨"i8", [2, 2], [1, 2, 3, 4]⟩])) 0 =
      some (.scalar (.str (String.mk (pack_numpy ⟨"i8", [2, 2], [1, 2, 3, 4]⟩)))) ∧
    paramsKey (Request_pack (.dict [("buf", PVal.bytes [1, 2, 3])])) "buf" =
      some (.scalar (.str (String.mk (pack_bytes [1, 2, 3])))) ∧
    paramsIdx (Client_pack (.seq [PVal.bytes [1, 2, 3]])) 0 =
      some (.bytes [1, 2, 3]) :=
  ⟨(c10_pack_in_place (.seq []) [PVal.ndarray ⟨"i8", [2, 2], [1, 2, 3, 4]⟩] 0
      [("buf", PVal.bytes [1, 2, 3])] "buf" ⟨"i8", [2, 2], [1, 2, 3, 4]⟩
      [1, 2, 3]).2.2.2.1 rfl,
   (c10_pack_in_place (.seq []) [PVal.ndarray ⟨"i8", [2, 2], [1, 2, 3, 4]⟩] 0
      [("buf", PVal.bytes [1, 2, 3])] "buf" ⟨"i8", [2, 2], [1, 2, 3, 4]⟩
      [1, 2, 3]).2.2.2.2.1 rfl,
   (c10_pack_in_place (.seq []) [PVal.bytes [1, 2, 3]] 0
      [("buf", PVal.bytes [1, 2, 3])] "buf" ⟨"i8", [2, 2], [1, 2, 3, 4]⟩
      [1, 2, 3]).2.2.2.2.2 rfl⟩
